import Mathlib

/-!
Verification of the classifieds-aggregation web application
(used-car listing browser with favorites, price alerts, and a
filtered/paginated listing query API).

The frontend logic (alerts page, price-history component, favorites
page, listing pages) is embedded from the TypeScript source; JS numbers
carrying prices, years and mileages are modelled as `Int`, JS string
values as `String`, and nullable/absent values as `Option`.
-/

namespace CarApp

/-- Condition of a price alert, `below` or `above` in the source. -/
inductive AlertCondition where
  | below
  | above
deriving DecidableEq, Repr

/-- A price alert as stored in browser local storage under the
`price-alerts` key (interface `PriceAlert` in the alerts page and the
price-history component). -/
structure PriceAlert where
  id : String
  carId : String
  targetPrice : Int
  condition : AlertCondition
  isActive : Bool
  createdAt : String
deriving DecidableEq, Repr

/-- A car record as the frontend receives it from `GET /api/cars/{id}`
(interface `Car`); `price` is nullable. Only the fields the embedded
logic reads are kept. -/
structure Car where
  id : String
  title : String
  price : Option Int
  department : String
  fuel_type : String
deriving DecidableEq, Repr

/-- Result of `getAlertStatus` on the alerts page. -/
structure AlertStatusResult where
  status : String
  triggered : Bool
  currentPrice : Option Int
deriving DecidableEq, Repr

/-- Function `getAlertStatus` from the alerts page: looks up the fetched car
details for the car of the alert; if absent, status `unknown` and not
triggered; otherwise coerces the car price with `car.price || 0` and
compares it to the target according to the condition. -/
def getAlertStatus (carDetails : String → Option Car) (alert : PriceAlert) :
    AlertStatusResult :=
  match carDetails alert.carId with
  | none => { status := "unknown", triggered := false, currentPrice := none }
  | some car =>
    let currentPrice : Int := car.price.getD 0
    let triggered : Bool :=
      match alert.condition with
      | .below => currentPrice ≤ alert.targetPrice
      | .above => currentPrice ≥ alert.targetPrice
    { status := if triggered then "triggered" else "active"
      triggered := triggered
      currentPrice := some currentPrice }

/-- Predicate `isTriggered` computed per alert in the price-history component,
over the `currentPrice` prop. -/
def isTriggered (currentPrice : Int) (alert : PriceAlert) : Bool :=
  match alert.condition with
  | .below => currentPrice ≤ alert.targetPrice
  | .above => currentPrice ≥ alert.targetPrice

/-- The `currentPrice` prop the car detail page passes to the
price-history component: `car.price || 0`. -/
def priceHistoryCurrentPrice (car : Car) : Int :=
  car.price.getD 0

/-- State of the car detail page relevant to the favorite button:
the stored `car-favorites` id list and the `isFavorite` flag
(initialized by `checkFavoriteStatus` to `favorites.includes(carId)`). -/
structure FavoriteState where
  favorites : List String
  isFavorite : Bool
deriving DecidableEq, Repr

/-- Function `toggleFavorite` on the car detail page: if currently marked
favorite, filter the id out of the stored list, else append it; the
flag is flipped either way. -/
def toggleFavorite (carId : String) (st : FavoriteState) : FavoriteState :=
  let updatedFavorites :=
    if st.isFavorite then st.favorites.filter (fun id => id != carId)
    else st.favorites ++ [carId]
  { favorites := updatedFavorites, isFavorite := !st.isFavorite }

/-- Function `fetchFavoriteCars` on the favorites page: fetch each favorited id
individually (a fetch outcome is `none` on a thrown error or a non-ok
response, `some car` on success), then keep the non-null results. -/
def fetchFavoriteCars (fetch : String → Option Car) (favorites : List String) :
    List Car :=
  let cars := favorites.map fetch
  let validCars := cars.filter (fun car => car.isSome)
  validCars.reduceOption

/-- Does `haystack` start with `needle` (character lists)? -/
def leadsWith (needle haystack : List Char) : Bool :=
  match needle, haystack with
  | [], _ => true
  | _ :: _, [] => false
  | c :: cs, d :: ds => c == d && leadsWith cs ds

/-- JS `haystack.includes(needle)` on character lists: `needle` occurs
contiguously somewhere inside `haystack`. -/
def occursIn (needle haystack : List Char) : Bool :=
  match haystack with
  | [] => needle.isEmpty
  | h :: t => leadsWith needle (h :: t) || occursIn needle t

/-- Case-insensitive `includes` as the favorites page uses it:
`haystack.toLowerCase().includes(needle.toLowerCase())`. -/
def lowerIncludes (haystack needle : String) : Bool :=
  occursIn (needle.data.map Char.toLower) (haystack.data.map Char.toLower)

/-- The filtering stage of `sortedAndFilteredCars` on the favorites
page: keep a fetched favorite when the search text is a
case-insensitive substring of its title, department or fuel type. -/
def filterFavoriteCars (filterText : String) (favoriteCars : List Car) :
    List Car :=
  favoriteCars.filter fun car =>
    lowerIncludes car.title filterText ||
    lowerIncludes car.department filterText ||
    lowerIncludes car.fuel_type filterText

/-- Function `toggleAlert` (alerts page and price-history component): flip
`isActive` of every alert whose id matches, keep the rest. -/
def toggleAlert (alertId : String) (alerts : List PriceAlert) : List PriceAlert :=
  alerts.map fun alert =>
    if alert.id = alertId then { alert with isActive := !alert.isActive }
    else alert

/-- Function `deleteAlert` (alerts page and price-history component): keep only
the alerts whose id differs. -/
def deleteAlert (alertId : String) (alerts : List PriceAlert) : List PriceAlert :=
  alerts.filter fun alert => alert.id != alertId

/-- Rendering the alerts page computes `getAlertStatus` for each alert
and returns the statuses; the stored alert list is passed through
untouched (the render path never calls `saveAlerts`). -/
def renderAlertStatuses (carDetails : String → Option Car)
    (alerts : List PriceAlert) : List AlertStatusResult × List PriceAlert :=
  (alerts.map (getAlertStatus carDetails), alerts)

/-- State of the price-history component relevant to `createAlert`:
the per-car alert list of the component (`alerts`, loaded by `loadAlerts` as
the stored alerts filtered to this car), the full stored list, the
car id and the selected condition. -/
structure AlertFormState where
  carId : String
  newAlertCondition : AlertCondition
  alerts : List PriceAlert
  stored : List PriceAlert
deriving Repr

/-- Function `createAlert` in the price-history component. The form input has
been run through `parseFloat`, modelled as `parsed : Option Int`
(`none` for NaN). On NaN or a non-positive value the function returns
before touching any state; otherwise it builds the new alert, appends
it to the component list, and `saveAlerts` rewrites storage as the
the alerts of other cars followed by the updated list of this car. -/
def createAlert (parsed : Option Int) (newId createdAt : String)
    (st : AlertFormState) : AlertFormState :=
  match parsed with
  | none => st
  | some price =>
    if price ≤ 0 then st
    else
      let newAlert : PriceAlert :=
        { id := newId, carId := st.carId, targetPrice := price
          condition := st.newAlertCondition, isActive := true
          createdAt := createdAt }
      let updatedAlerts := st.alerts ++ [newAlert]
      { st with
        alerts := updatedAlerts
        stored := st.stored.filter (fun a => a.carId != st.carId) ++ updatedAlerts }

/-- Page size shared by both Home implementations. -/
def CARS_PER_PAGE : Nat := 12

/-- User state of the basic Home page that feeds its `fetchCars`:
`currentPage`, the two filters, and the selected sort key (held in
`sortBy` state but never transmitted). -/
structure BasicHomeState where
  currentPage : Nat
  maxPrice : Nat
  department : String
  sortBy : String
deriving DecidableEq, Repr

/-- Query parameters built by the basic Home `fetchCars`: always
`skip` and `limit`, then `max_price` when below the 50000 slider
maximum and `department` when non-empty. No sort parameter is ever
appended. -/
def basicHomeParams (st : BasicHomeState) : List (String × String) :=
  [("skip", toString ((st.currentPage - 1) * CARS_PER_PAGE)),
   ("limit", toString CARS_PER_PAGE)]
  ++ (if st.maxPrice < 50000 then [("max_price", toString st.maxPrice)] else [])
  ++ (if st.department ≠ "" then [("department", st.department)] else [])

/-- User state of the enhanced Home page that feeds its `fetchCars`. -/
structure EnhancedHomeState where
  currentPage : Nat
  minPrice : Nat
  maxPrice : Nat
  department : String
  minYear : Nat
  maxYear : Nat
  minMileage : Nat
  maxMileage : Nat
  fuelTypes : List String
  sellerTypes : List String
  sortBy : String
deriving DecidableEq, Repr

/-- Query parameters built by the enhanced Home `fetchCars`; `today`
stands for `new Date().getFullYear()`. Each filter is appended only
when it differs from its slider default; the selected sort key is
appended as `sort` whenever `sortBy` is truthy (non-empty). -/
def enhancedHomeParams (today : Nat) (st : EnhancedHomeState) :
    List (String × String) :=
  [("skip", toString ((st.currentPage - 1) * CARS_PER_PAGE)),
   ("limit", toString CARS_PER_PAGE)]
  ++ (if 0 < st.minPrice then [("min_price", toString st.minPrice)] else [])
  ++ (if st.maxPrice < 100000 then [("max_price", toString st.maxPrice)] else [])
  ++ (if st.department ≠ "" then [("department", st.department)] else [])
  ++ (if 1990 < st.minYear then [("min_year", toString st.minYear)] else [])
  ++ (if st.maxYear < today then [("max_year", toString st.maxYear)] else [])
  ++ (if 0 < st.minMileage then [("min_mileage", toString st.minMileage)] else [])
  ++ (if st.maxMileage < 300000 then [("max_mileage", toString st.maxMileage)] else [])
  ++ st.fuelTypes.map (fun fuel => ("fuel_type", fuel))
  ++ st.sellerTypes.map (fun seller => ("seller_type", seller))
  ++ (if st.sortBy ≠ "" then [("sort", st.sortBy)] else [])

/-- A persisted listing record of the Listing Store (data model of
§3 of the spec; the backend implementation is not under src/). -/
structure StoreListing where
  external_id : String
  title : String
  description : String
  price : Option Int
  year : Option Int
  mileage : Option Int
  fuel_type : String
  seller_type : String
  department : String
  url : String
  images : List String
  first_seen : Nat
  last_seen : Nat
deriving DecidableEq, Repr

/-- A freshly scraped record before persistence: the fields of §3
without the store-managed timestamps. -/
structure RawListing where
  external_id : String
  title : String
  description : String
  price : Option Int
  year : Option Int
  mileage : Option Int
  fuel_type : String
  seller_type : String
  department : String
  url : String
  images : List String
deriving DecidableEq, Repr

/-- Is a listing with this external id already stored? -/
def hasExternalId (store : List StoreListing) (eid : String) : Bool :=
  store.any fun s => s.external_id == eid

/-- Modelled from the spec: the Listing Store `upsert` (§4.2 and the
§3 invariant; the backend source is missing from src/). Inserts when
the external_id is unseen, setting `first_seen = last_seen = now`;
otherwise updates the mutable fields (price, description, images,
last_seen) of the record with that external_id and never changes
`first_seen` or `external_id`. -/
def upsert (now : Nat) (r : RawListing) (store : List StoreListing) :
    List StoreListing :=
  if hasExternalId store r.external_id then
    store.map fun s =>
      if s.external_id = r.external_id then
        { s with price := r.price, description := r.description
                 images := r.images, last_seen := now }
      else s
  else
    store ++ [{ external_id := r.external_id, title := r.title
                description := r.description, price := r.price
                year := r.year, mileage := r.mileage
                fuel_type := r.fuel_type, seller_type := r.seller_type
                department := r.department, url := r.url
                images := r.images, first_seen := now, last_seen := now }]

/-- Filter parameters of the Query API (§4.3): each min/max bound and
the department are optional; fuel and seller types are set-membership
filters where an empty list imposes no constraint. -/
structure QueryFilters where
  min_price : Option Int
  max_price : Option Int
  department : Option String
  min_year : Option Int
  max_year : Option Int
  min_mileage : Option Int
  max_mileage : Option Int
  fuel_type : List String
  seller_type : List String
deriving DecidableEq, Repr

/-- An absent lower bound imposes no constraint; a supplied one
requires the field to be present and at least the bound. -/
def meetsMin (bound field : Option Int) : Bool :=
  match bound, field with
  | none, _ => true
  | some _, none => false
  | some b, some v => b ≤ v

/-- An absent upper bound imposes no constraint; a supplied one
requires the field to be present and at most the bound. -/
def meetsMax (bound field : Option Int) : Bool :=
  match bound, field with
  | none, _ => true
  | some _, none => false
  | some b, some v => v ≤ b

/-- Modelled from the spec: the conjunction of every supplied filter
(§4.3, §8; the backend source is missing from src/). -/
def matchesFilters (f : QueryFilters) (s : StoreListing) : Bool :=
  meetsMin f.min_price s.price && meetsMax f.max_price s.price &&
  (match f.department with
   | none => true
   | some d => s.department == d) &&
  meetsMin f.min_year s.year && meetsMax f.max_year s.year &&
  meetsMin f.min_mileage s.mileage && meetsMax f.max_mileage s.mileage &&
  (f.fuel_type.isEmpty || f.fuel_type.contains s.fuel_type) &&
  (f.seller_type.isEmpty || f.seller_type.contains s.seller_type)

/-- Result shape of the Query API list endpoint. -/
structure QueryResult where
  records : List StoreListing
  total : Nat
deriving DecidableEq, Repr

/-- Modelled from the spec: `query(filters, skip, limit)` (§4.2/§4.3;
the backend source is missing from src/). Orders the matching records
by the observed default (descending insertion order), truncates to the
requested page, and reports the total matching count before
truncation. -/
def query (f : QueryFilters) (skip limit : Nat) (store : List StoreListing) :
    QueryResult :=
  let matching := (store.filter (matchesFilters f)).reverse
  { records := (matching.drop skip).take limit, total := matching.length }

/-! Concrete sample data used by the closed witness and counterexample
theorems below. -/

/-- Sample alert on car `A1`, condition `below`, target 10000. -/
def c1Alert : PriceAlert :=
  { id := "1", carId := "A1", targetPrice := 10000, condition := .below
    isActive := true, createdAt := "2024-01-01" }

/-- Sample car `A1` whose price is absent. -/
def c1CarNoPrice : Car :=
  { id := "A1", title := "Peugeot 208", price := none
    department := "69", fuel_type := "diesel" }

/-- Sample car `A1` priced at 9000. -/
def c1CarPriced : Car := { c1CarNoPrice with price := some 9000 }

/-- Fetched car details resolving every id to the price-less car. -/
def c1DetailsNoPrice : String → Option Car := fun _ => some c1CarNoPrice

/-- Fetched car details resolving every id to the priced car. -/
def c1DetailsPriced : String → Option Car := fun _ => some c1CarPriced

/-- Sample car for the favorites-fetch witness. -/
def c6Car : Car :=
  { id := "a", title := "Golf", price := some 15000
    department := "38", fuel_type := "essence" }

/-- Sample fetch outcome map: only `"a"` succeeds. -/
def c6Fetch : String → Option Car :=
  fun id => if id = "a" then some c6Car else none

/-- Sample alert for the frame-condition witness. -/
def c7Alert : PriceAlert :=
  { id := "7", carId := "A1", targetPrice := 5000, condition := .above
    isActive := true, createdAt := "2024-01-02" }

/-- Car details map resolving nothing, for the render conjunct. -/
def c7NoDetails : String → Option Car := fun _ => none

/-- Sample stored listing with external id `"X"`. -/
def c2Stored : StoreListing :=
  { external_id := "X", title := "Clio", description := "old"
    price := some 12000, year := some 2015, mileage := some 80000
    fuel_type := "essence", seller_type := "particulier"
    department := "69", url := "u", images := ["i1"]
    first_seen := 100, last_seen := 150 }

/-- Sample re-scraped record with the same external id `"X"`. -/
def c2Raw : RawListing :=
  { external_id := "X", title := "Clio", description := "new"
    price := some 11000, year := some 2015, mileage := some 80000
    fuel_type := "essence", seller_type := "particulier"
    department := "69", url := "u", images := ["i2"] }

/-- Query filters imposing no constraint. -/
def c3NoFilters : QueryFilters :=
  { min_price := none, max_price := none, department := none
    min_year := none, max_year := none, min_mileage := none
    max_mileage := none, fuel_type := [], seller_type := [] }

/-- A second stored listing, external id `"Y"`. -/
def c4Second : StoreListing := { c2Stored with external_id := "Y", price := some 7000 }

/-- A third stored listing, external id `"Z"`. -/
def c4Third : StoreListing := { c2Stored with external_id := "Z", price := some 9500 }

/-- A three-record store for the pagination witness. -/
def c4Store : List StoreListing := [c2Stored, c4Second, c4Third]

/-- Basic Home state with sort key `price_asc`. -/
def c9Basic : BasicHomeState :=
  { currentPage := 1, maxPrice := 50000, department := "", sortBy := "price_asc" }

/-- The same basic Home state with sort key `date_added`. -/
def c9Basic2 : BasicHomeState := { c9Basic with sortBy := "date_added" }

/-- Enhanced Home state with every filter at its default and no sort key. -/
def c9Enhanced : EnhancedHomeState :=
  { currentPage := 1, minPrice := 0, maxPrice := 100000, department := ""
    minYear := 1990, maxYear := 2025, minMileage := 0, maxMileage := 300000
    fuelTypes := [], sellerTypes := [], sortBy := "" }

/-- Stored alert on another car `B`, for the create-alert witness. -/
def c10Other : PriceAlert :=
  { id := "5", carId := "B", targetPrice := 3000, condition := .below
    isActive := true, createdAt := "2024-01-03" }

/-- Alert-form state for car `A1` whose storage holds the alert of this car
and an alert of another car. -/
def c10State : AlertFormState :=
  { carId := "A1", newAlertCondition := .above
    alerts := [c7Alert], stored := [c7Alert, c10Other] }

/-- The alert the create-alert witness expects to be appended. -/
def c10New : PriceAlert :=
  { id := "99", carId := "A1", targetPrice := 100, condition := .above
    isActive := true, createdAt := "2024-02-01" }

/-! Helper lemmas. -/

theorem leadsWith_iff (needle haystack : List Char) :
    leadsWith needle haystack = true ↔ needle <+: haystack := by
  induction needle generalizing haystack with
  | nil => simp [leadsWith, List.nil_prefix]
  | cons c cs ih =>
    cases haystack with
    | nil => simp [leadsWith, List.prefix_nil]
    | cons d ds =>
      simp [leadsWith, List.cons_prefix_cons, ih, Bool.and_eq_true, beq_iff_eq]

theorem occursIn_iff (needle haystack : List Char) :
    occursIn needle haystack = true ↔ needle <:+: haystack := by
  induction haystack with
  | nil => simp [occursIn, List.infix_nil, List.isEmpty_iff]
  | cons a t ih =>
    simp [occursIn, List.infix_cons_iff, Bool.or_eq_true, leadsWith_iff, ih]

theorem occursIn_nil_left (haystack : List Char) :
    occursIn [] haystack = true := by
  cases haystack with
  | nil => rfl
  | cons a t => simp [occursIn, leadsWith]

/-! Claim theorems. -/

/-- C1 (counterexample): the claim that an alert whose
listing has an undefined current price is never triggered is false on the code:
`getAlertStatus` coerces an absent price with `car.price || 0`, so a
`below` alert with target 10000 on a fetched car whose price is absent
is reported triggered. -/
theorem alert_undefined_price_triggers :
    c1CarNoPrice.price = none ∧
    c1DetailsNoPrice c1Alert.carId = some c1CarNoPrice ∧
    (getAlertStatus c1DetailsNoPrice c1Alert).triggered = true :=
  ⟨rfl, rfl, rfl⟩

/-- C1 (amended): when the car record was not fetched, the alert is not
triggered; when it was fetched with a defined price p, a `below` alert
is triggered iff p ≤ target and an `above` alert iff target ≤ p; when
it was fetched with an absent price, the price is coerced to 0, so a
`below` alert is triggered iff 0 ≤ target and an `above` alert iff
target ≤ 0. The `isTriggered` computation of the price-history component over the
`car.price || 0` prop of the detail page agrees with `getAlertStatus`. -/
theorem alert_triggered_status (carDetails : String → Option Car) (a : PriceAlert) :
    (carDetails a.carId = none → (getAlertStatus carDetails a).triggered = false)
  ∧ (∀ car p, carDetails a.carId = some car → car.price = some p →
      ((getAlertStatus carDetails a).triggered = true ↔
        ((a.condition = .below ∧ p ≤ a.targetPrice) ∨
         (a.condition = .above ∧ a.targetPrice ≤ p))))
  ∧ (∀ car, carDetails a.carId = some car → car.price = none →
      ((getAlertStatus carDetails a).triggered = true ↔
        ((a.condition = .below ∧ 0 ≤ a.targetPrice) ∨
         (a.condition = .above ∧ a.targetPrice ≤ 0))))
  ∧ (∀ car, isTriggered (priceHistoryCurrentPrice car) a =
      (getAlertStatus (fun _ => some car) a).triggered) := by
  refine ⟨fun h => ?_, fun car p hcar hp => ?_, fun car hcar hp => ?_, fun car => ?_⟩
  · simp [getAlertStatus, h]
  · cases hcond : a.condition <;>
      simp [getAlertStatus, hcar, hp, hcond, ge_iff_le]
  · cases hcond : a.condition <;>
      simp [getAlertStatus, hcar, hp, hcond, ge_iff_le]
  · cases hcond : a.condition <;>
      simp [getAlertStatus, isTriggered, priceHistoryCurrentPrice, hcond]

/-- C1 witness: the amended theorem applied to a concrete priced car
(price 9000, target 10000, condition below). -/
theorem alert_triggered_status_witness :
    (getAlertStatus c1DetailsPriced c1Alert).triggered = true ↔
      ((c1Alert.condition = .below ∧ (9000 : Int) ≤ c1Alert.targetPrice) ∨
       (c1Alert.condition = .above ∧ c1Alert.targetPrice ≤ (9000 : Int))) :=
  (alert_triggered_status c1DetailsPriced c1Alert).2.1 c1CarPriced 9000 rfl rfl

/-- C5: toggling the favorite twice with the same id restores both the
membership state of the stored favorites set (for every id) and the
`isFavorite` flag, provided the flag was in sync with storage, as
`checkFavoriteStatus` establishes. -/
theorem favorite_toggle_involution (st : FavoriteState) (carId : String)
    (h : st.isFavorite = st.favorites.contains carId) :
    (∀ x : String,
      x ∈ (toggleFavorite carId (toggleFavorite carId st)).favorites ↔
        x ∈ st.favorites)
  ∧ (toggleFavorite carId (toggleFavorite carId st)).isFavorite =
      st.isFavorite := by
  cases hfav : st.isFavorite with
  | false =>
    rw [hfav] at h
    have hnotmem : carId ∉ st.favorites := by
      intro hmem
      have hc : st.favorites.contains carId = true := by simpa using hmem
      rw [← h] at hc
      exact Bool.false_ne_true hc
    refine ⟨fun x => ?_, by simp [toggleFavorite, hfav]⟩
    by_cases hx : x = carId
    · subst hx
      simp [toggleFavorite, hfav, List.mem_filter, List.mem_append, hnotmem]
    · simp [toggleFavorite, hfav, List.mem_filter, List.mem_append, hx]
  | true =>
    rw [hfav] at h
    have hmem : carId ∈ st.favorites := by
      have hc : st.favorites.contains carId = true := h.symm
      simpa using hc
    refine ⟨fun x => ?_, by simp [toggleFavorite, hfav]⟩
    by_cases hx : x = carId
    · subst hx
      simp [toggleFavorite, hfav, List.mem_filter, List.mem_append, hmem]
    · simp [toggleFavorite, hfav, List.mem_filter, List.mem_append, hx]

/-- C5 witness: double toggle of `"a"` over favorites `["a", "b"]`
keeps `"a"` a member. -/
theorem favorite_toggle_involution_witness :
    "a" ∈ (toggleFavorite "a" (toggleFavorite "a" ⟨["a", "b"], true⟩)).favorites ↔
      "a" ∈ (["a", "b"] : List String) :=
  (favorite_toggle_involution ⟨["a", "b"], true⟩ "a" rfl).1 "a"

/-- C6: the favorites page fetches each favorited id individually; the
displayed list is exactly the per-id successful fetch results in
order (`filterMap`), so every failed fetch is omitted, every
successful one is kept, and failure of one entry never suppresses the
others. -/
theorem favorites_fetch_failures_independent (fetch : String → Option Car)
    (favs : List String) :
    fetchFavoriteCars fetch favs = favs.filterMap fetch
  ∧ (∀ id c, id ∈ favs → fetch id = some c →
      c ∈ fetchFavoriteCars fetch favs)
  ∧ (∀ c, c ∈ fetchFavoriteCars fetch favs →
      ∃ id, id ∈ favs ∧ fetch id = some c) := by
  have hmain : fetchFavoriteCars fetch favs = favs.filterMap fetch := by
    induction favs with
    | nil => rfl
    | cons a l ih =>
      simp only [fetchFavoriteCars] at ih ⊢
      cases hfa : fetch a with
      | none =>
        simpa [List.map_cons, List.filter_cons, hfa, List.filterMap_cons] using ih
      | some c =>
        simpa [List.map_cons, List.filter_cons, hfa, List.filterMap_cons,
          List.reduceOption_cons_of_some] using ih
  refine ⟨hmain, fun id c hid hfetch => ?_, fun c hc => ?_⟩
  · rw [hmain, List.mem_filterMap]
    exact ⟨id, hid, hfetch⟩
  · rw [hmain, List.mem_filterMap] at hc
    obtain ⟨id, hid, hfetch⟩ := hc
    exact ⟨id, hid, hfetch⟩

/-- C6 witness: with favorites `["a", "b"]` where only `"a"` fetches
successfully, the successful car is displayed. -/
theorem favorites_fetch_failures_independent_witness :
    c6Car ∈ fetchFavoriteCars c6Fetch ["a", "b"] :=
  (favorites_fetch_failures_independent c6Fetch ["a", "b"]).2.1 "a" c6Car
    (by simp) rfl

/-- C8: a fetched favorite is displayed iff the search text is a
case-insensitive contiguous substring of its title, department or fuel
type; with empty search text every fetched favorite is displayed. -/
theorem favorites_search_filter (t : String) (cars : List Car) :
    (∀ c, c ∈ filterFavoriteCars t cars ↔
      (c ∈ cars ∧
        ((t.data.map Char.toLower) <:+: (c.title.data.map Char.toLower) ∨
         (t.data.map Char.toLower) <:+: (c.department.data.map Char.toLower) ∨
         (t.data.map Char.toLower) <:+: (c.fuel_type.data.map Char.toLower))))
  ∧ filterFavoriteCars "" cars = cars := by
  constructor
  · intro c
    rw [filterFavoriteCars, List.mem_filter]
    simp only [lowerIncludes, occursIn_iff, Bool.or_eq_true]
    tauto
  · rw [filterFavoriteCars, List.filter_eq_self]
    intro c _
    have hempty : ("" : String).data.map Char.toLower = [] := rfl
    simp [lowerIncludes, hempty, occursIn_nil_left]

/-- C7: toggling an alert preserves the list length and maps each
entry either to itself (id mismatch) or to the same record with only
`isActive` flipped (id match); deleting keeps exactly the alerts with
a different id; rendering the derived statuses passes the stored list
through unmodified. -/
theorem alert_mutations_frame (alerts : List PriceAlert) (alertId : String)
    (carDetails : String → Option Car) :
    (toggleAlert alertId alerts).length = alerts.length
  ∧ (∀ i (h1 : i < alerts.length) (h2 : i < (toggleAlert alertId alerts).length),
      (toggleAlert alertId alerts).get ⟨i, h2⟩ =
        (if (alerts.get ⟨i, h1⟩).id = alertId then
          { alerts.get ⟨i, h1⟩ with isActive := !(alerts.get ⟨i, h1⟩).isActive }
         else alerts.get ⟨i, h1⟩))
  ∧ (∀ a, a ∈ deleteAlert alertId alerts ↔ (a ∈ alerts ∧ a.id ≠ alertId))
  ∧ (renderAlertStatuses carDetails alerts).2 = alerts := by
  refine ⟨by simp [toggleAlert], fun i h1 h2 => ?_, fun a => ?_, rfl⟩
  · simp [toggleAlert]
  · simp [deleteAlert, List.mem_filter, bne_iff_ne]

/-- C7 witness: toggling the only stored alert by its own id flips its
`isActive` field and nothing else. -/
theorem alert_mutations_frame_witness :
    (toggleAlert "7" [c7Alert]).get ⟨0, by decide⟩ =
      { c7Alert with isActive := !c7Alert.isActive } := by
  have h := (alert_mutations_frame [c7Alert] "7" c7NoDetails).2.1 0
    (by decide) (by decide)
  simpa [c7Alert] using h

/-- The basic Home page never emits a `sort` query key. -/
theorem basic_params_no_sort_key (bst : BasicHomeState) :
    "sort" ∉ (basicHomeParams bst).map Prod.fst := by
  simp only [basicHomeParams]
  split_ifs <;> simp

/-- C9: the basic Home request is independent of the selected sort key
and never contains a `sort` parameter; the enhanced Home appends the
selected sort key whenever it is non-empty; hence the two builds agree
only when the enhanced state would send no sort parameter. -/
theorem sort_param_divergence (today : Nat) (bst bst2 : BasicHomeState)
    (est : EnhancedHomeState) :
    (bst.currentPage = bst2.currentPage → bst.maxPrice = bst2.maxPrice →
      bst.department = bst2.department →
      basicHomeParams bst = basicHomeParams bst2)
  ∧ "sort" ∉ (basicHomeParams bst).map Prod.fst
  ∧ (est.sortBy ≠ "" → ("sort", est.sortBy) ∈ enhancedHomeParams today est)
  ∧ (basicHomeParams bst = enhancedHomeParams today est → est.sortBy = "") := by
  refine ⟨fun h1 h2 h3 => ?_, basic_params_no_sort_key bst, fun hs => ?_,
    fun heq => ?_⟩
  · simp [basicHomeParams, h1, h2, h3]
  · simp [enhancedHomeParams, hs]
  · by_contra hne
    have hmem : ("sort", est.sortBy) ∈ enhancedHomeParams today est := by
      simp [enhancedHomeParams, hne]
    rw [← heq] at hmem
    exact basic_params_no_sort_key bst (List.mem_map_of_mem Prod.fst hmem)

/-- C9 witness: the basic build ignores a sort-key change, and a
concrete all-default enhanced state matching the basic build has an
empty sort key. -/
theorem sort_param_divergence_witness :
    basicHomeParams c9Basic = basicHomeParams c9Basic2 ∧
      c9Enhanced.sortBy = "" :=
  ⟨(sort_param_divergence 2025 c9Basic c9Basic2 c9Enhanced).1 rfl rfl rfl,
   (sort_param_divergence 2025 c9Basic c9Basic2 c9Enhanced).2.2.2 (by decide)⟩

/-- C10: `createAlert` on an unparseable (NaN) or non-positive target
leaves the whole state, in particular the stored alert list, unchanged;
on a positive parsed price it appends exactly one new alert with the
parsed target, the selected condition and `isActive = true` to the
component list, and the stored list afterwards is a permutation of the
previous stored list plus that one alert (each previously stored
record is preserved unchanged), provided the component list was loaded
from storage as `loadAlerts` does. -/
theorem create_alert_atomic (parsed : Option Int) (newId createdAt : String)
    (st : AlertFormState)
    (hsync : st.alerts = st.stored.filter (fun a => a.carId == st.carId)) :
    (parsed = none → createAlert parsed newId createdAt st = st)
  ∧ (∀ p, parsed = some p → p ≤ 0 → createAlert parsed newId createdAt st = st)
  ∧ (∀ p, parsed = some p → 0 < p →
      (createAlert parsed newId createdAt st).alerts =
        st.alerts ++ [{ id := newId, carId := st.carId, targetPrice := p
                        condition := st.newAlertCondition, isActive := true
                        createdAt := createdAt }]
    ∧ ((createAlert parsed newId createdAt st).stored).Perm
        (st.stored ++ [{ id := newId, carId := st.carId, targetPrice := p
                         condition := st.newAlertCondition, isActive := true
                         createdAt := createdAt }])) := by
  refine ⟨fun h => by simp [createAlert, h], fun p hp hle => ?_,
    fun p hp hpos => ?_⟩
  · rw [hp]
    simp [createAlert, hle]
  · have hnle : ¬ p ≤ 0 := not_le.mpr hpos
    rw [hp]
    refine ⟨by simp [createAlert, hnle], ?_⟩
    have hperm := List.filter_append_perm
      (fun a : PriceAlert => a.carId != st.carId) st.stored
    have hfix : st.stored.filter (fun a => !(a.carId != st.carId)) =
        st.stored.filter (fun a => a.carId == st.carId) := by
      apply List.filter_congr
      intro a _
      simp [bne]
    rw [hfix] at hperm
    simp only [createAlert, if_neg hnle]
    rw [hsync, ← List.append_assoc]
    exact hperm.append_right _

/-- C10 witness: creating an alert with parsed price 100 on a state
whose storage holds alerts of this car and of another car appends
the new alert to the component list and permutes storage plus the new
alert. -/
theorem create_alert_atomic_witness :
    (createAlert (some 100) "99" "2024-02-01" c10State).alerts =
      c10State.alerts ++ [c10New]
  ∧ ((createAlert (some 100) "99" "2024-02-01" c10State).stored).Perm
      (c10State.stored ++ [c10New]) := by
  have h := (create_alert_atomic (some 100) "99" "2024-02-01" c10State
    (by decide)).2.2 100 rfl (by decide)
  exact h

/-- C2: upserting a record whose external_id is already stored keeps
the listing count, rewrites the stored record with that id to the new
price, description and images and the new last_seen, and leaves every
other record, and the external_id of the matched record and first_seen,
unchanged. -/
theorem upsert_existing_updates_in_place (now : Nat) (r : RawListing)
    (store : List StoreListing)
    (hmem : hasExternalId store r.external_id = true) :
    (upsert now r store).length = store.length
  ∧ (∀ i (h1 : i < store.length) (h2 : i < (upsert now r store).length),
      (upsert now r store).get ⟨i, h2⟩ =
        (if (store.get ⟨i, h1⟩).external_id = r.external_id then
          { store.get ⟨i, h1⟩ with
              price := r.price,
              description := r.description,
              images := r.images,
              last_seen := now }
         else store.get ⟨i, h1⟩))
  ∧ (∀ i (h1 : i < store.length) (h2 : i < (upsert now r store).length),
      ((upsert now r store).get ⟨i, h2⟩).external_id =
        (store.get ⟨i, h1⟩).external_id
    ∧ ((upsert now r store).get ⟨i, h2⟩).first_seen =
        (store.get ⟨i, h1⟩).first_seen) := by
  have hget : ∀ i (h1 : i < store.length) (h2 : i < (upsert now r store).length),
      (upsert now r store).get ⟨i, h2⟩ =
        (if (store.get ⟨i, h1⟩).external_id = r.external_id then
          { store.get ⟨i, h1⟩ with
              price := r.price,
              description := r.description,
              images := r.images,
              last_seen := now }
         else store.get ⟨i, h1⟩) := by
    intro i h1 h2
    simp [upsert, hmem]
  refine ⟨by simp [upsert, hmem], hget, fun i h1 h2 => ?_⟩
  rw [hget i h1 h2]
  split
  · exact ⟨rfl, rfl⟩
  · exact ⟨rfl, rfl⟩

/-- C2 witness: re-upserting external id `"X"` updates in place,
keeping external_id and first_seen. -/
theorem upsert_existing_updates_in_place_witness :
    ((upsert 200 c2Raw [c2Stored]).get ⟨0, by decide⟩).external_id =
      (([c2Stored] : List StoreListing).get ⟨0, by decide⟩).external_id
  ∧ ((upsert 200 c2Raw [c2Stored]).get ⟨0, by decide⟩).first_seen =
      (([c2Stored] : List StoreListing).get ⟨0, by decide⟩).first_seen :=
  (upsert_existing_updates_in_place 200 c2Raw [c2Stored] (by decide)).2.2 0
    (by decide) (by decide)

/-- C3: every record a query returns is a stored record satisfying the
conjunction of every supplied filter, and the reported total is the
count of all matching records, independent of skip and limit. -/
theorem query_conjunctive_filters (f : QueryFilters) (skip limit : Nat)
    (store : List StoreListing) :
    (∀ r, r ∈ (query f skip limit store).records →
      r ∈ store ∧ matchesFilters f r = true)
  ∧ (query f skip limit store).total =
      (store.filter (matchesFilters f)).length
  ∧ (∀ skip2 limit2,
      (query f skip limit store).total = (query f skip2 limit2 store).total) := by
  refine ⟨fun r hr => ?_, by simp [query], fun skip2 limit2 => by simp [query]⟩
  have h1 : r ∈ (store.filter (matchesFilters f)).reverse.drop skip :=
    List.take_subset _ _ hr
  have h2 : r ∈ (store.filter (matchesFilters f)).reverse :=
    List.drop_subset _ _ h1
  rw [List.mem_reverse] at h2
  exact ⟨(List.mem_filter.mp h2).1, (List.mem_filter.mp h2).2⟩

/-- C3 witness: with no filters supplied, the single stored record is
returned and matches. -/
theorem query_conjunctive_filters_witness :
    c2Stored ∈ ([c2Stored] : List StoreListing) ∧
      matchesFilters c3NoFilters c2Stored = true :=
  (query_conjunctive_filters c3NoFilters 0 10 [c2Stored]).1 c2Stored (by decide)

/-- Splitting a list into consecutive length-L chunks and joining them
in order reconstructs the list, as soon as n chunks cover its length. -/
theorem chunks_join {α : Type} (L n : Nat) (l : List α)
    (h : l.length ≤ n * L) :
    ((List.range n).map (fun k => (l.drop (k * L)).take L)).flatten = l := by
  induction n generalizing l with
  | zero =>
    have hnil : l = [] := List.length_eq_zero.mp (Nat.le_zero.mp (by simpa using h))
    subst hnil
    simp
  | succ n ih =>
    have hfun : ((fun k => (l.drop (k * L)).take L) ∘ Nat.succ) =
        (fun k => (((l.drop L).drop (k * L)).take L)) := by
      funext k
      simp only [Function.comp_apply]
      rw [List.drop_drop]
      congr 2
      rw [Nat.succ_mul, Nat.add_comm]
    have hlen : (l.drop L).length ≤ n * L := by
      rw [List.length_drop]
      rw [Nat.succ_mul] at h
      omega
    rw [List.range_succ_eq_map, List.map_cons, List.map_map, hfun,
      List.flatten_cons, ih (l.drop L) hlen]
    simp [List.take_append_drop]

/-- C4: for page size L, the pages requested at skip = k·L for
k < n are contiguous slices whose ordered concatenation reconstructs
the whole filtered result, as soon as n pages cover the total. -/
theorem pagination_reconstructs (f : QueryFilters) (store : List StoreListing)
    (L n : Nat) (_hL : 0 < L)
    (hN : (query f 0 L store).total ≤ n * L) :
    ((List.range n).map (fun k => (query f (k * L) L store).records)).flatten
      = (store.filter (matchesFilters f)).reverse := by
  have hrec : ∀ k, (query f (k * L) L store).records =
      (((store.filter (matchesFilters f)).reverse).drop (k * L)).take L :=
    fun k => rfl
  simp only [hrec]
  refine chunks_join L n _ ?_
  simpa [query] using hN

/-- C4 witness: a three-record store paged with L = 2 over n = 2 pages
is reconstructed in order. -/
theorem pagination_reconstructs_witness :
    ((List.range 2).map
      (fun k => (query c3NoFilters (k * 2) 2 c4Store).records)).flatten
      = (c4Store.filter (matchesFilters c3NoFilters)).reverse :=
  pagination_reconstructs c3NoFilters c4Store 2 2 (by decide) (by decide)

end CarApp
